import Mathlib

/-
Verification of the Tasmota HLK-LD2450 presence-sensor driver
(src/tasmota/tasmota_xsns_sensor/xsns_114_ld2450.ino).

Shallow embedding conventions:
* bytes are `Nat` values; every read of a `uint8_t` cell is taken modulo 256;
* 16-bit machine integers are modelled as `Int` with explicit conversions
  (`toI16` is the value of `*(int16_t *)p` on a little-endian word,
  `u16ofI16` is the `uint16_t` cast used by the bound swap);
* C integer division `/` on `int` is truncation toward zero, `Int.tdiv`;
* `(uint16_t)sqrt(pow(x,2)+pow(y,2))` computes a correctly rounded IEEE double
  square root of an exactly representable integer (x²+y² < 2³¹ « 2⁵³) and then
  truncates; for this range the double rounding error (≈2⁻³⁷) is far below the
  distance of √n to the nearest integer for non-square n (≥ 2⁻¹⁷), so the
  truncated result is exactly the integer square root `Nat.sqrt (x²+y²)`;
* the fixed-size receive buffer `arr_body` together with its fill index
  `idx_body` is modelled as the list of its first `idx_body` bytes (bytes at
  or beyond `idx_body` are never read before being overwritten);
* the settings blob `Settings->rf_code` is a function `row → pos → byte`.
-/

namespace LD2450

/-! ## Constants (from the `#define` block) -/

/-- LD2450_DIST_MAX, maximum detection distance in mm. -/
def DIST_MAX : Int := 6000

/-- LD2450_MSG_SIZE_MAX, capacity of the receive body buffer. -/
def MSG_SIZE_MAX : Nat := 32

/-- SECS_PER_DAY (Tasmota core constant). -/
def SECS_PER_DAY : Nat := 86400

/-! ## 16-bit decoding (LD2450ReceiveData, lines 560-582) -/

/-- Unsigned value of a 16-bit little-endian word assembled from two bytes. -/
def u16le (lo hi : Nat) : Nat := lo % 256 + 256 * (hi % 256)

/-- Two's-complement value of a 16-bit word, i.e. the value read by
`*(int16_t *)p` from the two bytes of the word. -/
def toI16 (u : Nat) : Int :=
  if u % 65536 < 32768 then ((u % 65536 : Nat) : Int) else ((u % 65536 : Nat) : Int) - 65536

/-- The in-place adjustment `if (v < 0) v = 0 - v - 32768;` that the driver
applies to each of x, y and speed after the two's-complement read. -/
def signMagAdjust (v : Int) : Int := if v < 0 then 0 - v - 32768 else v

/-- The sign-magnitude reading of a 16-bit word as the spec describes it:
bit 15 is a sign flag and bits 0-14 are the magnitude. -/
def signMagSpec (u : Nat) : Int :=
  if u % 65536 < 32768 then ((u % 65536 : Nat) : Int) else -((u % 65536 - 32768 : Nat) : Int)

/-- The driver's adjustment of the two's-complement reading computes exactly
the bit-15-sign / bits-0-14-magnitude reading. -/
theorem signMagAdjust_toI16 (u : Nat) : signMagAdjust (toI16 u) = signMagSpec u := by
  have hub : u % 65536 < 65536 := Nat.mod_lt _ (by norm_num)
  rcases Nat.lt_or_ge (u % 65536) 32768 with h | h
  · rw [toI16, if_pos h, signMagSpec, if_pos h, signMagAdjust,
      if_neg (not_lt.mpr (Int.natCast_nonneg _))]
  · rw [toI16, if_neg (by omega), signMagSpec, if_neg (by omega), signMagAdjust,
      if_pos (by push_cast; omega)]
    omega

/-- Decoded measurements of one target slot. -/
structure TargetMeas where
  x : Int
  y : Int
  speed : Int
  dist : Nat
deriving DecidableEq

/-- Distance computation `(uint16_t)sqrt(pow(x,2) + pow(y,2))`; see the header
comment for why the truncated double square root equals `Nat.sqrt`. -/
def distCalc (x y : Int) : Nat := Nat.sqrt (x * x + y * y).toNat

/-- Byte `k` of the received message body (`uint8_t arr_body[k]`). -/
def byteAt (body : List Nat) (k : Nat) : Nat := body.getD k 0 % 256

/-- Decoding of target slot `i` from a complete 30-byte frame body,
LD2450ReceiveData lines 560-582: each slot is 8 bytes starting at offset
`4 + 8*i`; x, y and speed are sign-magnitude-adjusted two's-complement words;
x is then multiplied by -1 ("x coordinate like the Android app!"), and y is
replaced by `0 - y`. -/
def decodeTarget (body : List Nat) (i : Nat) : TargetMeas :=
  let start := 4 + i * 8
  let x0 := signMagAdjust (toI16 (u16le (byteAt body start) (byteAt body (start + 1))))
  let x := -1 * x0
  let y0 := signMagAdjust (toI16 (u16le (byteAt body (start + 2)) (byteAt body (start + 3))))
  let y := 0 - y0
  let speed := signMagAdjust (toI16 (u16le (byteAt body (start + 4)) (byteAt body (start + 5))))
  ⟨x, y, speed, distCalc x y⟩

/-- The claim's rounding rule: round(√n) as a natural number,
⌊(√(4n) + 1) / 2⌋. -/
def roundSqrt (n : Nat) : Nat := (Nat.sqrt (4 * n) + 1) / 2

/-- Evaluation helper for `Nat.sqrt` at concrete arguments. -/
theorem sqrtEval (n r : Nat) (h1 : r * r ≤ n) (h2 : n < (r + 1) * (r + 1)) :
    Nat.sqrt n = r := by
  have ha : r ≤ Nat.sqrt n := Nat.le_sqrt.mpr h1
  have hb : Nat.sqrt n < r + 1 := Nat.sqrt_lt.mpr h2
  omega

/-- A complete frame body whose target-0 payload words are x = 377 (bit 15
clear) and y = 0x8000 + 466 (bit 15 set, magnitude 466); the driver decodes it
to x = -377, y = 466 — the spec's scenario frame. -/
def bodyA : List Nat :=
  [0xAA, 0xFF, 0x03, 0x00,
   121, 1, 210, 129, 0, 0, 0, 0,
   0, 0, 0, 0, 0, 0, 0, 0,
   0, 0, 0, 0, 0, 0, 0, 0,
   0x55, 0xCC]

/-- A complete frame body whose target-0 payload words are x-word = 0x8002 and
y-word = 0x8002; the driver decodes them to x = 2, y = 2. -/
def bodyB : List Nat :=
  [0xAA, 0xFF, 0x03, 0x00,
   2, 128, 2, 128, 0, 0, 0, 0,
   0, 0, 0, 0, 0, 0, 0, 0,
   0, 0, 0, 0, 0, 0, 0, 0,
   0x55, 0xCC]

/-- Claim C1 (counterexample): the claim says the decoded x equals the
sign-magnitude result with no further negation; but for the frame whose x word
is 377 the driver stores x = -377 (line 568 negates x as well as y), so the
claim fails at this concrete input. -/
theorem ld2450_c1_counterexample :
    (decodeTarget bodyA 0).x = -377 ∧
    signMagSpec (u16le (byteAt bodyA 4) (byteAt bodyA 5)) = 377 ∧
    (decodeTarget bodyA 0).x ≠ signMagSpec (u16le (byteAt bodyA 4) (byteAt bodyA 5)) := by
  refine ⟨by decide, by decide, by decide⟩

/-- Claim C1 (amended): x, y and speed are decoded from their little-endian
payload words by the sign-magnitude rule, and both x and y (not only y) are
negated after magnitude decoding, while speed is the sign-magnitude result
with no further negation. -/
theorem ld2450_c1_amended (body : List Nat) (i : Nat) :
    (decodeTarget body i).x
        = -signMagSpec (u16le (byteAt body (4 + i * 8)) (byteAt body (4 + i * 8 + 1))) ∧
    (decodeTarget body i).y
        = -signMagSpec (u16le (byteAt body (4 + i * 8 + 2)) (byteAt body (4 + i * 8 + 3))) ∧
    (decodeTarget body i).speed
        = signMagSpec (u16le (byteAt body (4 + i * 8 + 4)) (byteAt body (4 + i * 8 + 5))) := by
  refine ⟨?_, ?_, ?_⟩ <;>
    simp [decodeTarget, signMagAdjust_toI16]

/-- Claim C2 (counterexample): for the decoded target x = 2, y = 2 the driver
computes dist = ⌊√8⌋ = 2, while the claim's rounding rule gives round(√8) = 3
(indeed (2·3-1)² = 25 ≤ 4·8 = 32 < 49 = (2·3+1)²), so dist is not the nearest
integer to the Euclidean distance. -/
theorem ld2450_c2_counterexample :
    (decodeTarget bodyB 0).x = 2 ∧ (decodeTarget bodyB 0).y = 2 ∧
    (decodeTarget bodyB 0).dist = 2 ∧
    roundSqrt ((decodeTarget bodyB 0).x * (decodeTarget bodyB 0).x +
        (decodeTarget bodyB 0).y * (decodeTarget bodyB 0).y).toNat = 3 ∧
    (2 * 3 - 1) * (2 * 3 - 1) ≤ 4 * 8 ∧ 4 * 8 < (2 * 3 + 1) * (2 * 3 + 1) ∧
    (decodeTarget bodyB 0).dist ≠
      roundSqrt ((decodeTarget bodyB 0).x * (decodeTarget bodyB 0).x +
        (decodeTarget bodyB 0).y * (decodeTarget bodyB 0).y).toNat := by
  have hd : (decodeTarget bodyB 0).dist = Nat.sqrt 8 := rfl
  have hr : roundSqrt ((decodeTarget bodyB 0).x * (decodeTarget bodyB 0).x +
      (decodeTarget bodyB 0).y * (decodeTarget bodyB 0).y).toNat = (Nat.sqrt 32 + 1) / 2 := rfl
  have h8 : Nat.sqrt 8 = 2 := sqrtEval 8 2 (by norm_num) (by norm_num)
  have h32 : Nat.sqrt 32 = 5 := sqrtEval 32 5 (by norm_num) (by norm_num)
  refine ⟨by decide, by decide, ?_, ?_, by norm_num, by norm_num, ?_⟩
  · rw [hd, h8]
  · rw [hr, h32]
  · rw [hd, hr, h8, h32]
    norm_num

/-- Helper: `distCalc` is the floor of the Euclidean distance. -/
theorem distCalc_floor (x y : Int) :
    distCalc x y * distCalc x y ≤ (x * x + y * y).toNat ∧
    (x * x + y * y).toNat < (distCalc x y + 1) * (distCalc x y + 1) := by
  unfold distCalc
  constructor
  · have h := Nat.sqrt_le' (x * x + y * y).toNat
    rwa [pow_two] at h
  · have h := Nat.lt_succ_sqrt' (x * x + y * y).toNat
    rwa [pow_two, Nat.succ_eq_add_one] at h

/-- Claim C2 (amended): the stored dist is the floor (truncation), not the
rounding, of √(x²+y²): it is the unique d with d² ≤ x²+y² < (d+1)². For the
spec's scenario x = -377, y = 466 the truncated and rounded values agree and
the computed dist is 599. -/
theorem ld2450_c2_amended (body : List Nat) (i : Nat) :
    ((decodeTarget body i).dist * (decodeTarget body i).dist ≤
        ((decodeTarget body i).x * (decodeTarget body i).x +
         (decodeTarget body i).y * (decodeTarget body i).y).toNat ∧
     ((decodeTarget body i).x * (decodeTarget body i).x +
      (decodeTarget body i).y * (decodeTarget body i).y).toNat <
        ((decodeTarget body i).dist + 1) * ((decodeTarget body i).dist + 1)) ∧
    (decodeTarget bodyA 0).x = -377 ∧ (decodeTarget bodyA 0).y = 466 ∧
    (decodeTarget bodyA 0).dist = 599 := by
  refine ⟨distCalc_floor _ _, by decide, by decide, ?_⟩
  have hd : (decodeTarget bodyA 0).dist = Nat.sqrt 359285 := rfl
  rw [hd]
  exact sqrtEval 359285 599 (by norm_num) (by norm_num)

/-! ## Byte-stream synchronizer (LD2450ReceiveData, lines 538-627) -/

/-- State of the receiver: fill index of the body buffer, its logical content
(first `idx_body` bytes), and the last-4-received-characters ring. -/
structure RecvState where
  idx_body : Nat
  arr_body : List Nat
  arr_last : List Nat
deriving DecidableEq

/-- The shift of the last-received-characters ring (lines 543-546). -/
def shiftLast (l : List Nat) (b : Nat) : List Nat :=
  [l.getD 1 0, l.getD 2 0, l.getD 3 0, b % 256]

/-- The little-endian `uint32_t` read through `pheader = (uint32_t *)&arr_last`. -/
def headerWord (l : List Nat) : Nat :=
  l.getD 0 0 + 256 * l.getD 1 0 + 65536 * l.getD 2 0 + 16777216 * l.getD 3 0

/-- The little-endian `uint16_t` read through `pfooter = (uint16_t *)(arr_last + 2)`. -/
def footerWord (l : List Nat) : Nat := l.getD 2 0 + 256 * l.getD 3 0

/-- Processing of one received byte after the startup delay (lines 538-623):
append to the body if there is room, shift the ring, then either resynchronize
on the header word 0x0003ffaa (body := the 4 header bytes), or, when the body
is exactly 30 bytes and the footer word is 0xcc55, consume the complete frame
(returned as the second component) and reset the body to empty. -/
def feedByte (s : RecvState) (recv : Nat) : RecvState × Option (List Nat) :=
  let b := recv % 256
  let body := if s.idx_body < MSG_SIZE_MAX then s.arr_body ++ [b] else s.arr_body
  let idx := if s.idx_body < MSG_SIZE_MAX then s.idx_body + 1 else s.idx_body
  let last := shiftLast s.arr_last recv
  if headerWord last = 0x0003ffaa then
    ({ idx_body := 4, arr_body := last, arr_last := last }, none)
  else if idx = 30 ∧ footerWord last = 0xcc55 then
    ({ idx_body := 0, arr_body := [], arr_last := last }, some body)
  else
    ({ idx_body := idx, arr_body := body, arr_last := last }, none)

/-- Claim C3: whenever the last 4 received bytes equal 0xAA 0xFF 0x03 0x00 in
stream order, the body buffer is reset to exactly those 4 header bytes (its
length becomes 4), regardless of what was accumulated before. -/
theorem ld2450_c3_header_resync (s : RecvState) (b : Nat)
    (h : shiftLast s.arr_last b = [0xAA, 0xFF, 0x03, 0x00]) :
    (feedByte s b).1.arr_body = [0xAA, 0xFF, 0x03, 0x00] ∧
    (feedByte s b).1.idx_body = 4 := by
  simp only [feedByte, h]
  rw [if_pos (by decide : headerWord [0xAA, 0xFF, 0x03, 0x00] = 0x0003ffaa)]
  exact ⟨rfl, rfl⟩

/-- Claim C3 witness: a concrete state mid-garbage gets resynchronized. -/
theorem ld2450_c3_witness :
    (feedByte ⟨7, [9, 9, 9, 9, 9, 9, 9], [9, 0xAA, 0xFF, 0x03]⟩ 0x00).1.arr_body
        = [0xAA, 0xFF, 0x03, 0x00] ∧
    (feedByte ⟨7, [9, 9, 9, 9, 9, 9, 9], [9, 0xAA, 0xFF, 0x03]⟩ 0x00).1.idx_body = 4 :=
  ld2450_c3_header_resync ⟨7, [9, 9, 9, 9, 9, 9, 9], [9, 0xAA, 0xFF, 0x03]⟩ 0x00 (by decide)

/-- The initial receiver state (all fields zeroed, as the static struct is). -/
def initRecvState : RecvState := { idx_body := 0, arr_body := [], arr_last := [0, 0, 0, 0] }

set_option maxRecDepth 10000 in
/-- Claim C4 (counterexample): feeding 33 garbage bytes from the initial state
leaves the body length at the 32-byte capacity — the 33rd byte, which would
overflow the buffer, does NOT reset it to empty as the claim states; appending
merely stops. -/
theorem ld2450_c4_counterexample :
    (List.foldl (fun s b => (feedByte s b).1) initRecvState (List.replicate 33 1)).idx_body
        = 32 ∧
    (List.foldl (fun s b => (feedByte s b).1) initRecvState (List.replicate 33 1)).idx_body
        ≠ 0 := by
  constructor <;> decide

/-- Claim C4 (amended): the body buffer is reset to empty when a complete
frame is consumed; its length never exceeds the 32-byte capacity; but on
overflow the buffer is NOT reset — the incoming byte is silently dropped and
the length stays at 32 (until a header pattern resynchronizes it to 4). -/
theorem ld2450_c4_amended (s : RecvState) (b : Nat) :
    (s.idx_body ≤ 32 → (feedByte s b).1.idx_body ≤ 32) ∧
    ((feedByte s b).2.isSome = true → (feedByte s b).1.idx_body = 0) ∧
    (s.idx_body = 32 → (feedByte s b).2 = none) ∧
    (s.idx_body = 32 → headerWord (shiftLast s.arr_last b) ≠ 0x0003ffaa →
      (feedByte s b).1.idx_body = 32 ∧ (feedByte s b).1.arr_body = s.arr_body) := by
  simp only [feedByte]
  by_cases hh : headerWord (shiftLast s.arr_last b) = 0x0003ffaa
  · rw [if_pos hh]
    exact ⟨fun _ => by norm_num, fun hs => by simp at hs, fun _ => rfl,
      fun _ hne => absurd hh hne⟩
  · rw [if_neg hh]
    by_cases hf : (if s.idx_body < MSG_SIZE_MAX then s.idx_body + 1 else s.idx_body) = 30 ∧
        footerWord (shiftLast s.arr_last b) = 0xcc55
    · rw [if_pos hf]
      refine ⟨fun _ => by norm_num, fun _ => rfl, fun h32 => ?_, fun h32 _ => ?_⟩
      · exfalso
        rcases hf with ⟨hf1, _⟩
        rw [h32] at hf1
        norm_num [MSG_SIZE_MAX] at hf1
      · exfalso
        rcases hf with ⟨hf1, _⟩
        rw [h32] at hf1
        norm_num [MSG_SIZE_MAX] at hf1
    · rw [if_neg hf]
      refine ⟨fun hle => ?_, fun hs => by simp at hs, fun _ => rfl, fun h32 _ => ?_⟩
      · show (if s.idx_body < MSG_SIZE_MAX then s.idx_body + 1 else s.idx_body) ≤ 32
        simp only [MSG_SIZE_MAX]
        split <;> omega
      · constructor
        · show (if s.idx_body < MSG_SIZE_MAX then s.idx_body + 1 else s.idx_body) = 32
          rw [h32]
          norm_num [MSG_SIZE_MAX]
        · show (if s.idx_body < MSG_SIZE_MAX then s.arr_body ++ [b % 256] else s.arr_body)
              = s.arr_body
          rw [h32]
          norm_num [MSG_SIZE_MAX]

/-- Claim C4 witness: a concrete full buffer absorbs a garbage byte without
resetting and without producing a frame. -/
theorem ld2450_c4_witness :
    (feedByte ⟨32, List.replicate 32 7, [7, 7, 7, 7]⟩ 9).1.idx_body = 32 ∧
    (feedByte ⟨32, List.replicate 32 7, [7, 7, 7, 7]⟩ 9).2 = none := by
  have h := ld2450_c4_amended ⟨32, List.replicate 32 7, [7, 7, 7, 7]⟩ 9
  exact ⟨(h.2.2.2 rfl (by decide)).1, h.2.2.1 rfl⟩

/-! ## Zone containment and debounce (LD2450ReceiveData, lines 585-605) -/

/-- A configured detection zone rectangle (millimeters). -/
structure ZoneRect where
  x1 : Int
  x2 : Int
  y1 : Int
  y2 : Int
deriving DecidableEq

/-- The function `zoneEnabled`: a zone with all four bounds zero is disabled. -/
def zoneEnabled (z : ZoneRect) : Bool :=
  !(z.x1 == 0 && z.x2 == 0 && z.y1 == 0 && z.y2 == 0)

/-- Current and previous occupancy bits of one (target, zone) pair
(`target_in_zone` and `target_in_zone_old`). -/
structure ZonePair where
  cur : Bool
  old : Bool
deriving DecidableEq

/-- The inclusive containment test of lines 595-596. -/
def inZoneRect (z : ZoneRect) (x y : Int) : Bool :=
  (x ≥ z.x1 && x ≤ z.x2) && (y ≥ z.y1 && y ≤ z.y2)

/-- One iteration of the zone loop for a target with dist > 0 (lines 590-600):
a disabled zone forces the current bit to false; otherwise the containment
result is committed only when `published` (current == previous) held before
the update. -/
def updateZoneCur (z : ZoneRect) (p : ZonePair) (x y : Int) : Bool :=
  if !zoneEnabled z then false
  else
    let published := p.cur == p.old
    if inZoneRect z x y then (if published then true else p.cur)
    else (if published then false else p.cur)

/-- The zone loop of one target over the zone array (current bits only). -/
def updateTargetZones : List ZoneRect → List ZonePair → Int → Int → List Bool
  | z :: cfg, p :: ps, x, y => updateZoneCur z p x y :: updateTargetZones cfg ps x y
  | _, _, _, _ => []

/-- The dist dichotomy of lines 585-605: dist > 0 runs the zone loop, dist = 0
forces every current bit of the target to false. -/
def updateTargetZoneBits (cfg : List ZoneRect) (pairs : List ZonePair)
    (x y : Int) (dist : Nat) : List Bool :=
  if 0 < dist then updateTargetZones cfg pairs x y
  else pairs.map fun _ => false

/-- Helper: the settle/debounce shape of one enabled-zone update. -/
theorem updateZoneCur_settle (z : ZoneRect) (p : ZonePair) (x y : Int)
    (hen : zoneEnabled z = true) :
    updateZoneCur z p x y = if p.cur = p.old then inZoneRect z x y else p.cur := by
  obtain ⟨cur, old⟩ := p
  cases cur <;> cases old <;>
    by_cases hin : inZoneRect z x y = true <;>
      simp [updateZoneCur, hen, hin]

/-- Claim C5: for a target with dist > 0 and an enabled zone, the current
occupancy bit of the (target, zone) pair becomes the inclusive containment
result exactly when the pair's current bit equalled its previous bit before
the update, and is left unchanged otherwise (one-tick settle/debounce). -/
theorem ld2450_c5_zone_debounce (cfg : List ZoneRect) (pairs : List ZonePair)
    (x y : Int) (dist : Nat) (j : Nat) (z : ZoneRect) (p : ZonePair)
    (hd : 0 < dist) (hz : cfg.get? j = some z) (hp : pairs.get? j = some p)
    (hen : zoneEnabled z = true) :
    (updateTargetZoneBits cfg pairs x y dist).get? j =
      some (if p.cur = p.old then inZoneRect z x y else p.cur) := by
  unfold updateTargetZoneBits
  rw [if_pos hd]
  induction cfg generalizing pairs j with
  | nil => simp at hz
  | cons zz cfgs ih =>
    cases pairs with
    | nil => simp at hp
    | cons pp pps =>
      cases j with
      | zero =>
        simp only [List.get?, Option.some_inj] at hz hp
        subst hz
        subst hp
        simp only [updateTargetZones, List.get?, Option.some_inj]
        exact updateZoneCur_settle _ _ x y hen
      | succ jj =>
        simp only [List.get?] at hz hp
        simp only [updateTargetZones, List.get?]
        exact ih pps jj hz hp

/-- Claim C5 witness: the spec scenario target (-377, 466) in the default
zone, with settled bits, is committed as inside the zone. -/
theorem ld2450_c5_witness :
    (updateTargetZoneBits [⟨-6000, 6000, 0, 6000⟩] [⟨false, false⟩]
        (-377) 466 599).get? 0 = some true := by
  have h := ld2450_c5_zone_debounce [⟨-6000, 6000, 0, 6000⟩] [⟨false, false⟩]
    (-377) 466 599 0 ⟨-6000, 6000, 0, 6000⟩ ⟨false, false⟩
    (by decide) rfl rfl (by decide)
  simpa using h

/-! ## Inactivity timeout (checkForTargetSensorTimeout, lines 642-656) -/

/-- The state touched by the timeout check: all (zone, target) current bits,
the per-target `in_zone` flags, the global counter and the last detection
time. -/
structure EngineState where
  zoneCur : List (List Bool)
  targetInZone : List Bool
  counter : Nat
  lastsensortime : Nat
deriving DecidableEq

/-- checkForTargetSensorTimeout: when `lastsensortime + sensortimeout <  now`
every occupancy bit and flag is forced to false, the counter is zeroed and
the last detection time is pushed one day into the future; the returned flag
is the `publish_target` result. -/
def checkForTargetSensorTimeout (st : EngineState) (sensortimeout now : Nat) :
    Bool × EngineState :=
  if st.lastsensortime + sensortimeout < now then
    (true,
      { zoneCur := st.zoneCur.map fun zl => zl.map fun _ => false,
        targetInZone := st.targetInZone.map fun _ => false,
        counter := 0,
        lastsensortime := now + SECS_PER_DAY })
  else (false, st)

/-- A concrete fully occupied engine state with an old detection time. -/
def engineStateEx : EngineState :=
  { zoneCur := List.replicate 8 (List.replicate 3 true),
    targetInZone := List.replicate 3 true,
    counter := 3,
    lastsensortime := 0 }

/-- Claim C6 (counterexample): after a timeout fires at time 1000 (timeout 5),
the check fires AGAIN at time 87406 although no new detection occurred in
between — the advanced sentinel only suppresses the timeout for one day, not
"until a new detection occurs" as the claim states. -/
theorem ld2450_c6_counterexample :
    (checkForTargetSensorTimeout engineStateEx 5 1000).1 = true ∧
    (checkForTargetSensorTimeout
        (checkForTargetSensorTimeout engineStateEx 5 1000).2 5 87406).1 = true := by
  constructor <;> decide

/-- Helper: the timeout check does not fire when the deadline has not passed. -/
theorem checkForTargetSensorTimeout_not_fire (st : EngineState) (timeout now : Nat)
    (h : ¬ st.lastsensortime + timeout < now) :
    (checkForTargetSensorTimeout st timeout now).1 = false := by
  unfold checkForTargetSensorTimeout
  rw [if_neg h]

/-- Claim C6 (amended): if the check runs at `now > lastsensortime + timeout`,
every (target, zone) current bit is forced to false, every target's occupied
flag is cleared, the counter becomes 0 and the last detection time becomes
`now + SECS_PER_DAY`; consequently no further timeout fires at any time up to
one day (plus the timeout) later — after that the timeout can fire again even
without a new detection. -/
theorem ld2450_c6_amended (st : EngineState) (timeout now : Nat)
    (h : st.lastsensortime + timeout < now) :
    (checkForTargetSensorTimeout st timeout now).1 = true ∧
    (∀ zl ∈ (checkForTargetSensorTimeout st timeout now).2.zoneCur,
        ∀ bb ∈ zl, bb = false) ∧
    (∀ bb ∈ (checkForTargetSensorTimeout st timeout now).2.targetInZone, bb = false) ∧
    (checkForTargetSensorTimeout st timeout now).2.counter = 0 ∧
    (checkForTargetSensorTimeout st timeout now).2.lastsensortime = now + SECS_PER_DAY ∧
    (∀ now2, now2 ≤ now + SECS_PER_DAY + timeout →
      (checkForTargetSensorTimeout
          (checkForTargetSensorTimeout st timeout now).2 timeout now2).1 = false) := by
  have hfire : checkForTargetSensorTimeout st timeout now =
      (true,
        { zoneCur := st.zoneCur.map fun zl => zl.map fun _ => false,
          targetInZone := st.targetInZone.map fun _ => false,
          counter := 0,
          lastsensortime := now + SECS_PER_DAY }) := by
    unfold checkForTargetSensorTimeout
    rw [if_pos h]
  rw [hfire]
  refine ⟨rfl, ?_, ?_, rfl, rfl, ?_⟩
  · intro zl hzl bb hbb
    simp only [List.mem_map] at hzl
    obtain ⟨zl0, _, rfl⟩ := hzl
    simp only [List.mem_map] at hbb
    obtain ⟨_, _, rfl⟩ := hbb
    rfl
  · intro bb hbb
    simp only [List.mem_map] at hbb
    obtain ⟨_, _, rfl⟩ := hbb
    rfl
  · intro now2 h2
    apply checkForTargetSensorTimeout_not_fire
    show ¬ (now + SECS_PER_DAY + timeout < now2)
    omega

/-- Claim C6 witness: concrete post-fire state at time 1000 with timeout 5. -/
theorem ld2450_c6_witness :
    (checkForTargetSensorTimeout engineStateEx 5 1000).2.counter = 0 ∧
    (checkForTargetSensorTimeout engineStateEx 5 1000).2.lastsensortime = 87400 ∧
    (checkForTargetSensorTimeout
        (checkForTargetSensorTimeout engineStateEx 5 1000).2 5 87400).1 = false := by
  have h := ld2450_c6_amended engineStateEx 5 1000 (by decide)
  exact ⟨h.2.2.2.1, h.2.2.2.2.1, h.2.2.2.2.2 87400 (by norm_num [SECS_PER_DAY])⟩

/-! ## Configuration validation, packing and persistence
(LD2450CheckConfig lines 346-381, LD2450LoadConfig 384-414,
LD2450ConfigChecksum 416-427, LD2450SaveConfig 430-457) -/

/-- The value of the `uint16_t` temporary used by the bound swap. -/
def u16ofI16 (v : Int) : Nat := (v % 65536).toNat

/-- Per-zone body of LD2450CheckConfig (lines 362-378): one-sided clamping of
each bound (x1 from below, x2 from above, y1 from below, y2 from above), then
a swap through a `uint16_t` temporary whenever a pair is inverted. -/
def ckZone (z : ZoneRect) : ZoneRect :=
  let x1 := if z.x1 < -DIST_MAX then -DIST_MAX else z.x1
  let x2 := if z.x2 > DIST_MAX then DIST_MAX else z.x2
  let y1 := if z.y1 < 0 then 0 else z.y1
  let y2 := if z.y2 > DIST_MAX then DIST_MAX else z.y2
  let px := if x1 > x2 then (x2, toI16 (u16ofI16 x1)) else (x1, x2)
  let py := if y1 > y2 then (y2, toI16 (u16ofI16 y1)) else (y1, y2)
  ⟨px.1, px.2, py.1, py.2⟩

/-- The driver configuration record (`ld2450_config`). -/
structure Config where
  zones : List ZoneRect
  tracktime : Nat
  trackmode : Nat
  sensortimeout : Nat
deriving DecidableEq

/-- LD2450CheckConfig: scalar defaults and per-zone clamp-and-swap. -/
def LD2450CheckConfig (c : Config) : Config :=
  { zones := c.zones.map ckZone,
    tracktime := if c.tracktime = 0 then 5 else c.tracktime,
    trackmode := if c.trackmode > 3 then 1 else c.trackmode,
    sensortimeout := if c.sensortimeout = 0 then 5 else c.sensortimeout }

/-- The settings blob `Settings->rf_code`, addressed as row → pos → byte. -/
def Settings : Type := Nat → Nat → Nat

/-- Read of a `uint8_t` cell (the array type bounds every cell below 256). -/
def cell (s : Settings) (r p : Nat) : Nat := s r p % 256

/-- Store of one byte into the settings blob. -/
def setCell (s : Settings) (r p v : Nat) : Settings :=
  fun r2 p2 => if r2 = r ∧ p2 = p then v else s r2 p2

/-- The byte `(uint8_t)((bound / 100) + 128)` stored for one zone bound
(C `/` on int truncates toward zero, hence `Int.tdiv`). -/
def packByte (v : Int) : Nat := ((Int.tdiv v 100 + 128) % 256).toNat

/-- The zone-store loop of LD2450SaveConfig (lines 441-452), with the same
pos/row bookkeeping: 4 bytes per zone, two zones per row starting at row 3. -/
def saveZones (s : Settings) (zones : List ZoneRect) : Settings :=
  (zones.foldl
    (fun acc z =>
      let s1 := setCell acc.1 acc.2.2 acc.2.1 (packByte z.x1)
      let s2 := setCell s1 acc.2.2 (acc.2.1 + 1) (packByte z.x2)
      let s3 := setCell s2 acc.2.2 (acc.2.1 + 2) (packByte z.y1)
      let s4 := setCell s3 acc.2.2 (acc.2.1 + 3) (packByte z.y2)
      if acc.2.1 + 4 ≥ 7 then (s4, 0, acc.2.2 + 1) else (s4, acc.2.1 + 4, acc.2.2))
    (s, 0, 3)).1

/-- The unpacking `((int16_t)Settings->rf_code[row][pos] - 128) * 100` of one
stored zone bound. -/
def unpackCell (s : Settings) (r p : Nat) : Int := ((cell s r p : Int) - 128) * 100

/-- The zone-read loop of LD2450LoadConfig (lines 400-411), with the same
pos/row bookkeeping. -/
def loadZones (s : Settings) : List ZoneRect :=
  ((List.range 8).foldl
    (fun acc _ =>
      let z : ZoneRect :=
        { x1 := unpackCell s acc.2.2 acc.2.1,
          x2 := unpackCell s acc.2.2 (acc.2.1 + 1),
          y1 := unpackCell s acc.2.2 (acc.2.1 + 2),
          y2 := unpackCell s acc.2.2 (acc.2.1 + 3) }
      if acc.2.1 + 4 ≥ 7 then (acc.1 ++ [z], 0, acc.2.2 + 1) else (acc.1 ++ [z], acc.2.1 + 4, acc.2.2))
    (([] : List ZoneRect), 0, 3)).1

/-- The cells covered by the checksum pointer walk from `rf_code[2][2]` to
`rf_code[6][7]` (rf_code rows are 9 bytes wide in the host firmware; the
exact extent of the walk does not affect the theorems below, as save and load
compute the checksum over identical memory). -/
def checksumCells : List (Nat × Nat) :=
  [(2, 2), (2, 3), (2, 4), (2, 5), (2, 6), (2, 7), (2, 8),
   (3, 0), (3, 1), (3, 2), (3, 3), (3, 4), (3, 5), (3, 6), (3, 7), (3, 8),
   (4, 0), (4, 1), (4, 2), (4, 3), (4, 4), (4, 5), (4, 6), (4, 7), (4, 8),
   (5, 0), (5, 1), (5, 2), (5, 3), (5, 4), (5, 5), (5, 6), (5, 7), (5, 8),
   (6, 0), (6, 1), (6, 2), (6, 3), (6, 4), (6, 5), (6, 6), (6, 7)]

/-- LD2450ConfigChecksum: 0x4711 plus every covered cell, in `uint16_t`. -/
def configChecksum (s : Settings) : Nat :=
  (checksumCells.foldl (fun a rp => a + cell s rp.1 rp.2) 0x4711) % 65536

/-- The final two stores of LD2450SaveConfig: checksum high byte to (2,0),
low byte to (2,1); both cells lie outside the checksum walk. -/
def writeChecksum (s : Settings) : Settings :=
  setCell (setCell s 2 0 (configChecksum s / 256)) 2 1 (configChecksum s % 256)

/-- The checksum as read back by LD2450LoadConfig (high byte · 256 + low,
via `checksum *= 0x100; checksum |= rf_code[2][1]`). -/
def storedChecksum (s : Settings) : Nat := cell s 2 0 * 256 + cell s 2 1

/-- LD2450SaveConfig: validate, store the three scalars at row 2, store the
zones, then compute and store the checksum. -/
def LD2450SaveConfig (c : Config) (s : Settings) : Settings :=
  writeChecksum
    (saveZones
      (setCell
        (setCell
          (setCell s 2 2 (LD2450CheckConfig c).tracktime)
          2 3 (LD2450CheckConfig c).trackmode)
        2 4 (LD2450CheckConfig c).sensortimeout)
      (LD2450CheckConfig c).zones)

/-- LD2450ConfigReset's configuration values: zone 1 spans the full
rectangle, all other zones are the disabled all-zero sentinel, default
times. -/
def defaultConfig : Config :=
  { zones := ⟨-DIST_MAX, DIST_MAX, 0, DIST_MAX⟩ :: List.replicate 7 ⟨0, 0, 0, 0⟩,
    tracktime := 5, trackmode := 1, sensortimeout := 5 }

/-- The repair-on-read step of LD2450LoadConfig: on checksum mismatch the
factory defaults are validated and saved (LD2450ConfigReset) before anything
is read back. -/
def loadSrc (s : Settings) : Settings :=
  if storedChecksum s ≠ configChecksum s then LD2450SaveConfig defaultConfig s else s

/-- LD2450LoadConfig: repair-on-read, then read the scalars and zones back
from the blob and validate with LD2450CheckConfig. -/
def LD2450LoadConfig (s : Settings) : Config :=
  LD2450CheckConfig
    { zones := loadZones (loadSrc s),
      tracktime := cell (loadSrc s) 2 2,
      trackmode := cell (loadSrc s) 2 3,
      sensortimeout := cell (loadSrc s) 2 4 }

/-- The effect of a successful `ld2450_zone` set command on the stored
configuration: the parsed values are saved (validating and packing) and the
configuration is reloaded (unpacking and validating again), CmdLD2450Zone
lines 272-280. -/
def zoneCmdApply (c : Config) (s : Settings) : Config :=
  LD2450LoadConfig (LD2450SaveConfig c s)

/-- The configuration entered by `ld2450_zone 1,0,-13000,0,6000`. -/
def badCfg : Config :=
  { zones := ⟨0, -13000, 0, 6000⟩ :: List.replicate 7 ⟨0, 0, 0, 0⟩,
    tracktime := 5, trackmode := 1, sensortimeout := 5 }

set_option maxRecDepth 100000 in
/-- Claim C7 (code bug): after the command `ld2450_zone 1,0,-13000,0,6000`
(store, validate-and-save, reload-and-validate) zone 1 ends as x1 = 0,
x2 = 12600: the one-sided clamping followed by the swap lets -13000 survive
validation, the `(mm/100)+128` byte packing wraps it to byte 254 (read back
as +12600 mm), and the second validation pass swaps but never re-clamps —
so the stored configuration violates the claimed [-6000, 6000] invariant. -/
theorem ld2450_c7_violation :
    (zoneCmdApply badCfg (fun _ _ => 0)).zones.getD 0 ⟨0, 0, 0, 0⟩ = ⟨0, 12600, 0, 6000⟩ ∧
    ¬ ((zoneCmdApply badCfg (fun _ _ => 0)).zones.getD 0 ⟨0, 0, 0, 0⟩).x2 ≤ DIST_MAX := by
  constructor <;> decide

/-- A configuration whose first zone has the sub-100mm bound x1 = 150. -/
def cfg150 : Config :=
  { zones := ⟨150, 6000, 0, 6000⟩ :: List.replicate 7 ⟨0, 0, 0, 0⟩,
    tracktime := 5, trackmode := 1, sensortimeout := 5 }

set_option maxRecDepth 100000 in
/-- Claim C8 (counterexample): save-then-load is not the identity on every
configuration: the zone bound 150 mm is stored as byte (150/100)+128 = 129
and read back as (129-128)·100 = 100 mm. -/
theorem ld2450_c8_counterexample :
    LD2450LoadConfig (LD2450SaveConfig cfg150 (fun _ _ => 0)) ≠ cfg150 ∧
    ((LD2450LoadConfig (LD2450SaveConfig cfg150 (fun _ _ => 0))).zones.getD 0
        ⟨0, 0, 0, 0⟩).x1 = 100 ∧
    (cfg150.zones.getD 0 ⟨0, 0, 0, 0⟩).x1 = 150 := by
  refine ⟨by decide, by decide, by decide⟩

/-- Reading a cell just written returns its byte value. -/
theorem cell_setCell_eq (s : Settings) (r p v : Nat) :
    cell (setCell s r p v) r p = v % 256 := by
  unfold cell setCell
  rw [if_pos ⟨rfl, rfl⟩]

/-- Reading any other cell is unaffected by a store. -/
theorem cell_setCell_ne (s : Settings) (r p v r2 p2 : Nat) (h : ¬(r2 = r ∧ p2 = p)) :
    cell (setCell s r p v) r2 p2 = cell s r2 p2 := by
  unfold cell setCell
  rw [if_neg h]

/-- The checksum only depends on the covered cells. -/
theorem checksum_cells_congr (s1 s2 : Settings)
    (h : ∀ rp ∈ checksumCells, cell s1 rp.1 rp.2 = cell s2 rp.1 rp.2) :
    configChecksum s1 = configChecksum s2 := by
  unfold configChecksum
  have hfold : ∀ (l : List (Nat × Nat)) (a : Nat),
      (∀ rp ∈ l, cell s1 rp.1 rp.2 = cell s2 rp.1 rp.2) →
      l.foldl (fun a2 rp => a2 + cell s1 rp.1 rp.2) a =
        l.foldl (fun a2 rp => a2 + cell s2 rp.1 rp.2) a := by
    intro l
    induction l with
    | nil => intro a _; rfl
    | cons hd tl ih =>
      intro a hmem
      simp only [List.foldl]
      rw [hmem hd (by simp)]
      exact ih _ (fun rp hrp => hmem rp (by simp [hrp]))
  rw [hfold checksumCells 0x4711 h]

/-- Storing the checksum bytes at (2,0) and (2,1) does not change the
checksum, whose walk starts at (2,2). -/
theorem configChecksum_writeChecksum (s : Settings) :
    configChecksum (writeChecksum s) = configChecksum s := by
  apply checksum_cells_congr
  intro rp hrp
  have hno : ¬(rp.1 = 2 ∧ rp.2 = 1) ∧ ¬(rp.1 = 2 ∧ rp.2 = 0) :=
    (by decide :
        ∀ rp2 ∈ checksumCells, ¬(rp2.1 = 2 ∧ rp2.2 = 1) ∧ ¬(rp2.1 = 2 ∧ rp2.2 = 0))
      rp hrp
  unfold writeChecksum
  rw [cell_setCell_ne _ _ _ _ _ _ hno.1, cell_setCell_ne _ _ _ _ _ _ hno.2]

/-- After a save, the stored checksum matches the recomputed one. -/
theorem storedChecksum_writeChecksum (s : Settings) :
    storedChecksum (writeChecksum s) = configChecksum (writeChecksum s) := by
  rw [configChecksum_writeChecksum]
  unfold storedChecksum writeChecksum
  rw [cell_setCell_ne _ _ _ _ _ _ (by decide), cell_setCell_eq, cell_setCell_eq]
  have hlt : configChecksum s < 65536 := by
    unfold configChecksum
    exact Nat.mod_lt _ (by norm_num)
  omega

/-- Loading right after a save never triggers the repair-on-read reset. -/
theorem loadSrc_writeChecksum (s : Settings) : loadSrc (writeChecksum s) = writeChecksum s := by
  unfold loadSrc
  rw [storedChecksum_writeChecksum]
  simp

/-- A packed byte is below 256. -/
theorem packByte_lt (v : Int) : packByte v < 256 := by
  unfold packByte
  have h1 : 0 ≤ (Int.tdiv v 100 + 128) % 256 := Int.emod_nonneg _ (by norm_num)
  have h2 : (Int.tdiv v 100 + 128) % 256 < 256 := Int.emod_lt_of_pos _ (by norm_num)
  omega

/-- A packed byte survives the uint8 read unchanged. -/
theorem packByte_mod (v : Int) : packByte v % 256 = packByte v :=
  Nat.mod_eq_of_lt (packByte_lt v)

/-- Pack-then-unpack is the identity on multiples of 100 that fit the byte
encoding without wraparound. -/
theorem packUnpack (v : Int) (hd : (100 : Int) ∣ v) (hlo : -12800 ≤ v) (hhi : v ≤ 12700) :
    ((packByte v : Int) - 128) * 100 = v := by
  obtain ⟨k, rfl⟩ := hd
  have ht : Int.tdiv (100 * k) 100 = k := Int.mul_tdiv_cancel_left k (by norm_num)
  unfold packByte
  rw [ht]
  have h1 : (0 : Int) ≤ k + 128 := by omega
  have h2 : k + 128 < 256 := by omega
  rw [Int.emod_eq_of_lt h1 h2, Int.toNat_of_nonneg h1]
  ring

/-- A zone with ordered, in-range bounds is a fixed point of the per-zone
validation. -/
theorem ckZone_id (z : ZoneRect) (h1 : -6000 ≤ z.x1) (h2 : z.x1 ≤ z.x2)
    (h3 : z.x2 ≤ 6000) (h4 : 0 ≤ z.y1) (h5 : z.y1 ≤ z.y2) (h6 : z.y2 ≤ 6000) :
    ckZone z = z := by
  have hD : DIST_MAX = (6000 : Int) := rfl
  have hc1 : ¬ (z.x1 < -DIST_MAX) := by omega
  have hc2 : ¬ (z.x2 > DIST_MAX) := by rw [hD]; omega
  have hc3 : ¬ (z.y1 < 0) := by omega
  have hc4 : ¬ (z.y2 > DIST_MAX) := by rw [hD]; omega
  have hs1 : ¬ (z.x1 > z.x2) := not_lt.mpr h2
  have hs2 : ¬ (z.y1 > z.y2) := not_lt.mpr h5
  simp only [ckZone, if_neg hc1, if_neg hc2, if_neg hc3, if_neg hc4,
    if_neg hs1, if_neg hs2]

/-- Mapping a function that fixes every member fixes the list. -/
theorem map_id_of_mem {α : Type _} (l : List α) (f : α → α) (h : ∀ a ∈ l, f a = a) :
    l.map f = l := by
  induction l with
  | nil => rfl
  | cons hd tl ih =>
    simp only [List.map_cons]
    rw [h hd (by simp), ih (fun a ha => h a (by simp [ha]))]

/-- A configuration with valid zones and valid scalars is a fixed point of
LD2450CheckConfig. -/
theorem checkConfig_id (c : Config)
    (hz : ∀ z ∈ c.zones, -6000 ≤ z.x1 ∧ z.x1 ≤ z.x2 ∧ z.x2 ≤ 6000 ∧
        0 ≤ z.y1 ∧ z.y1 ≤ z.y2 ∧ z.y2 ≤ 6000)
    (htt : c.tracktime ≠ 0) (htm : c.trackmode ≤ 3) (hst : c.sensortimeout ≠ 0) :
    LD2450CheckConfig c = c := by
  unfold LD2450CheckConfig
  rw [map_id_of_mem _ _ (fun z hm => ckZone_id z (hz z hm).1 (hz z hm).2.1 (hz z hm).2.2.1
      (hz z hm).2.2.2.1 (hz z hm).2.2.2.2.1 (hz z hm).2.2.2.2.2),
    if_neg htt, if_neg (by omega), if_neg hst]

/-- Validity of a zone for exact round-tripping: ordered in-range bounds that
are multiples of the stored 100 mm resolution. -/
def ZoneValid100 (z : ZoneRect) : Prop :=
  -6000 ≤ z.x1 ∧ z.x1 ≤ z.x2 ∧ z.x2 ≤ 6000 ∧ 0 ≤ z.y1 ∧ z.y1 ≤ z.y2 ∧ z.y2 ≤ 6000 ∧
  (100 : Int) ∣ z.x1 ∧ (100 : Int) ∣ z.x2 ∧ (100 : Int) ∣ z.y1 ∧ (100 : Int) ∣ z.y2

instance (z : ZoneRect) : Decidable (ZoneValid100 z) := by
  unfold ZoneValid100
  infer_instance

/-- A list of length 8 has exactly eight elements (the zone array shape). -/
theorem list_length_eight {α : Type _} (l : List α) (hlen8 : l.length = 8) :
    ∃ w0 w1 w2 w3 w4 w5 w6 w7, l = [w0, w1, w2, w3, w4, w5, w6, w7] := by
  obtain ⟨b0, l0, rfl⟩ := List.exists_of_length_succ l (show l.length = 7 + 1 by omega)
  simp only [List.length_cons] at hlen8
  obtain ⟨b1, l1, rfl⟩ := List.exists_of_length_succ l0 (show l0.length = 6 + 1 by omega)
  simp only [List.length_cons] at hlen8
  obtain ⟨b2, l2, rfl⟩ := List.exists_of_length_succ l1 (show l1.length = 5 + 1 by omega)
  simp only [List.length_cons] at hlen8
  obtain ⟨b3, l3, rfl⟩ := List.exists_of_length_succ l2 (show l2.length = 4 + 1 by omega)
  simp only [List.length_cons] at hlen8
  obtain ⟨b4, l4, rfl⟩ := List.exists_of_length_succ l3 (show l3.length = 3 + 1 by omega)
  simp only [List.length_cons] at hlen8
  obtain ⟨b5, l5, rfl⟩ := List.exists_of_length_succ l4 (show l4.length = 2 + 1 by omega)
  simp only [List.length_cons] at hlen8
  obtain ⟨b6, l6, rfl⟩ := List.exists_of_length_succ l5 (show l5.length = 1 + 1 by omega)
  simp only [List.length_cons] at hlen8
  obtain ⟨b7, l7, rfl⟩ := List.exists_of_length_succ l6 (show l6.length = 0 + 1 by omega)
  simp only [List.length_cons] at hlen8
  obtain rfl : l7 = [] := List.length_eq_zero.mp (by omega)
  exact ⟨b0, b1, b2, b3, b4, b5, b6, b7, rfl⟩

/-- The zone-store loop written out over an 8-zone list: 4 bytes per zone, two
zones per row, rows 3 to 6. -/
theorem saveZones_eq (s : Settings) (z0 z1 z2 z3 z4 z5 z6 z7 : ZoneRect) :
    saveZones s [z0, z1, z2, z3, z4, z5, z6, z7] =
      setCell (setCell (setCell (setCell (setCell (setCell (setCell (setCell
      (setCell (setCell (setCell (setCell (setCell (setCell (setCell (setCell
      (setCell (setCell (setCell (setCell (setCell (setCell (setCell (setCell
      (setCell (setCell (setCell (setCell (setCell (setCell (setCell (setCell
        s 3 0 (packByte z0.x1)) 3 1 (packByte z0.x2)) 3 2 (packByte z0.y1)) 3 3 (packByte z0.y2))
        3 4 (packByte z1.x1)) 3 5 (packByte z1.x2)) 3 6 (packByte z1.y1)) 3 7 (packByte z1.y2))
        4 0 (packByte z2.x1)) 4 1 (packByte z2.x2)) 4 2 (packByte z2.y1)) 4 3 (packByte z2.y2))
        4 4 (packByte z3.x1)) 4 5 (packByte z3.x2)) 4 6 (packByte z3.y1)) 4 7 (packByte z3.y2))
        5 0 (packByte z4.x1)) 5 1 (packByte z4.x2)) 5 2 (packByte z4.y1)) 5 3 (packByte z4.y2))
        5 4 (packByte z5.x1)) 5 5 (packByte z5.x2)) 5 6 (packByte z5.y1)) 5 7 (packByte z5.y2))
        6 0 (packByte z6.x1)) 6 1 (packByte z6.x2)) 6 2 (packByte z6.y1)) 6 3 (packByte z6.y2))
        6 4 (packByte z7.x1)) 6 5 (packByte z7.x2)) 6 6 (packByte z7.y1)) 6 7 (packByte z7.y2) :=
  rfl

/-- The zone-read loop written out: the same 32 cells in the same order. -/
theorem loadZones_eq (s : Settings) :
    loadZones s =
      [⟨unpackCell s 3 0, unpackCell s 3 1, unpackCell s 3 2, unpackCell s 3 3⟩,
       ⟨unpackCell s 3 4, unpackCell s 3 5, unpackCell s 3 6, unpackCell s 3 7⟩,
       ⟨unpackCell s 4 0, unpackCell s 4 1, unpackCell s 4 2, unpackCell s 4 3⟩,
       ⟨unpackCell s 4 4, unpackCell s 4 5, unpackCell s 4 6, unpackCell s 4 7⟩,
       ⟨unpackCell s 5 0, unpackCell s 5 1, unpackCell s 5 2, unpackCell s 5 3⟩,
       ⟨unpackCell s 5 4, unpackCell s 5 5, unpackCell s 5 6, unpackCell s 5 7⟩,
       ⟨unpackCell s 6 0, unpackCell s 6 1, unpackCell s 6 2, unpackCell s 6 3⟩,
       ⟨unpackCell s 6 4, unpackCell s 6 5, unpackCell s 6 6, unpackCell s 6 7⟩] :=
  rfl

set_option maxHeartbeats 2000000 in
/-- Claim C8 (amended): save followed by load reproduces the configuration
exactly when it is already valid (ordered, in-range zone bounds; nonzero
byte-sized times; mode ≤ 3) and every zone bound is a multiple of 100 mm;
bounds that are not multiples of 100 are quantized (truncated toward zero) to
the stored 10 cm resolution, so the unrestricted round-trip identity fails. -/
theorem ld2450_c8_amended (c : Config) (s : Settings)
    (hlen : c.zones.length = 8)
    (hz : ∀ z ∈ c.zones, ZoneValid100 z)
    (htt0 : c.tracktime ≠ 0) (htt : c.tracktime < 256)
    (htm : c.trackmode ≤ 3)
    (hst0 : c.sensortimeout ≠ 0) (hst : c.sensortimeout < 256) :
    LD2450LoadConfig (LD2450SaveConfig c s) = c := by
  have hck : LD2450CheckConfig c = c :=
    checkConfig_id c
      (fun z hm => ⟨(hz z hm).1, (hz z hm).2.1, (hz z hm).2.2.1, (hz z hm).2.2.2.1,
        (hz z hm).2.2.2.2.1, (hz z hm).2.2.2.2.2.1⟩)
      htt0 htm hst0
  obtain ⟨zones, tt, tm, st⟩ := c
  obtain ⟨z0, z1, z2, z3, z4, z5, z6, z7, rfl⟩ := list_length_eight zones hlen
  replace htt0 : tt ≠ 0 := htt0
  replace htt : tt < 256 := htt
  replace htm : tm ≤ 3 := htm
  replace hst0 : st ≠ 0 := hst0
  replace hst : st < 256 := hst
  have hckz : (LD2450CheckConfig ⟨[z0, z1, z2, z3, z4, z5, z6, z7], tt, tm, st⟩).zones
      = [z0, z1, z2, z3, z4, z5, z6, z7] := by rw [hck]
  have hcktt : (LD2450CheckConfig ⟨[z0, z1, z2, z3, z4, z5, z6, z7], tt, tm, st⟩).tracktime
      = tt := by rw [hck]
  have hcktm : (LD2450CheckConfig ⟨[z0, z1, z2, z3, z4, z5, z6, z7], tt, tm, st⟩).trackmode
      = tm := by rw [hck]
  have hckst : (LD2450CheckConfig ⟨[z0, z1, z2, z3, z4, z5, z6, z7], tt, tm, st⟩).sensortimeout
      = st := by rw [hck]
  obtain ⟨a0, b0, c0, d0, f0, g0, u0, v0, w0, q0⟩ := hz z0 (by simp)
  obtain ⟨a1, b1, c1, d1, f1, g1, u1, v1, w1, q1⟩ := hz z1 (by simp)
  obtain ⟨a2, b2, c2, d2, f2, g2, u2, v2, w2, q2⟩ := hz z2 (by simp)
  obtain ⟨a3, b3, c3, d3, f3, g3, u3, v3, w3, q3⟩ := hz z3 (by simp)
  obtain ⟨a4, b4, c4, d4, f4, g4, u4, v4, w4, q4⟩ := hz z4 (by simp)
  obtain ⟨a5, b5, c5, d5, f5, g5, u5, v5, w5, q5⟩ := hz z5 (by simp)
  obtain ⟨a6, b6, c6, d6, f6, g6, u6, v6, w6, q6⟩ := hz z6 (by simp)
  obtain ⟨a7, b7, c7, d7, f7, g7, u7, v7, w7, q7⟩ := hz z7 (by simp)
  have e00 : ((packByte z0.x1 : Int) - 128) * 100 = z0.x1 :=
    packUnpack _ u0 (by omega) (by omega)
  have e01 : ((packByte z0.x2 : Int) - 128) * 100 = z0.x2 :=
    packUnpack _ v0 (by omega) (by omega)
  have e02 : ((packByte z0.y1 : Int) - 128) * 100 = z0.y1 :=
    packUnpack _ w0 (by omega) (by omega)
  have e03 : ((packByte z0.y2 : Int) - 128) * 100 = z0.y2 :=
    packUnpack _ q0 (by omega) (by omega)
  have e10 : ((packByte z1.x1 : Int) - 128) * 100 = z1.x1 :=
    packUnpack _ u1 (by omega) (by omega)
  have e11 : ((packByte z1.x2 : Int) - 128) * 100 = z1.x2 :=
    packUnpack _ v1 (by omega) (by omega)
  have e12 : ((packByte z1.y1 : Int) - 128) * 100 = z1.y1 :=
    packUnpack _ w1 (by omega) (by omega)
  have e13 : ((packByte z1.y2 : Int) - 128) * 100 = z1.y2 :=
    packUnpack _ q1 (by omega) (by omega)
  have e20 : ((packByte z2.x1 : Int) - 128) * 100 = z2.x1 :=
    packUnpack _ u2 (by omega) (by omega)
  have e21 : ((packByte z2.x2 : Int) - 128) * 100 = z2.x2 :=
    packUnpack _ v2 (by omega) (by omega)
  have e22 : ((packByte z2.y1 : Int) - 128) * 100 = z2.y1 :=
    packUnpack _ w2 (by omega) (by omega)
  have e23 : ((packByte z2.y2 : Int) - 128) * 100 = z2.y2 :=
    packUnpack _ q2 (by omega) (by omega)
  have e30 : ((packByte z3.x1 : Int) - 128) * 100 = z3.x1 :=
    packUnpack _ u3 (by omega) (by omega)
  have e31 : ((packByte z3.x2 : Int) - 128) * 100 = z3.x2 :=
    packUnpack _ v3 (by omega) (by omega)
  have e32 : ((packByte z3.y1 : Int) - 128) * 100 = z3.y1 :=
    packUnpack _ w3 (by omega) (by omega)
  have e33 : ((packByte z3.y2 : Int) - 128) * 100 = z3.y2 :=
    packUnpack _ q3 (by omega) (by omega)
  have e40 : ((packByte z4.x1 : Int) - 128) * 100 = z4.x1 :=
    packUnpack _ u4 (by omega) (by omega)
  have e41 : ((packByte z4.x2 : Int) - 128) * 100 = z4.x2 :=
    packUnpack _ v4 (by omega) (by omega)
  have e42 : ((packByte z4.y1 : Int) - 128) * 100 = z4.y1 :=
    packUnpack _ w4 (by omega) (by omega)
  have e43 : ((packByte z4.y2 : Int) - 128) * 100 = z4.y2 :=
    packUnpack _ q4 (by omega) (by omega)
  have e50 : ((packByte z5.x1 : Int) - 128) * 100 = z5.x1 :=
    packUnpack _ u5 (by omega) (by omega)
  have e51 : ((packByte z5.x2 : Int) - 128) * 100 = z5.x2 :=
    packUnpack _ v5 (by omega) (by omega)
  have e52 : ((packByte z5.y1 : Int) - 128) * 100 = z5.y1 :=
    packUnpack _ w5 (by omega) (by omega)
  have e53 : ((packByte z5.y2 : Int) - 128) * 100 = z5.y2 :=
    packUnpack _ q5 (by omega) (by omega)
  have e60 : ((packByte z6.x1 : Int) - 128) * 100 = z6.x1 :=
    packUnpack _ u6 (by omega) (by omega)
  have e61 : ((packByte z6.x2 : Int) - 128) * 100 = z6.x2 :=
    packUnpack _ v6 (by omega) (by omega)
  have e62 : ((packByte z6.y1 : Int) - 128) * 100 = z6.y1 :=
    packUnpack _ w6 (by omega) (by omega)
  have e63 : ((packByte z6.y2 : Int) - 128) * 100 = z6.y2 :=
    packUnpack _ q6 (by omega) (by omega)
  have e70 : ((packByte z7.x1 : Int) - 128) * 100 = z7.x1 :=
    packUnpack _ u7 (by omega) (by omega)
  have e71 : ((packByte z7.x2 : Int) - 128) * 100 = z7.x2 :=
    packUnpack _ v7 (by omega) (by omega)
  have e72 : ((packByte z7.y1 : Int) - 128) * 100 = z7.y1 :=
    packUnpack _ w7 (by omega) (by omega)
  have e73 : ((packByte z7.y2 : Int) - 128) * 100 = z7.y2 :=
    packUnpack _ q7 (by omega) (by omega)
  have htt2 : tt % 256 = tt := Nat.mod_eq_of_lt htt
  have htm2 : tm % 256 = tm := Nat.mod_eq_of_lt (by omega)
  have hst2 : st % 256 = st := Nat.mod_eq_of_lt hst
  unfold LD2450LoadConfig LD2450SaveConfig
  rw [hckz, hcktt, hcktm, hckst, saveZones_eq, loadSrc_writeChecksum, loadZones_eq]
  simp only [unpackCell, writeChecksum]
  simp [cell_setCell_eq, cell_setCell_ne, packByte_mod, htt2, htm2, hst2,
    e00, e01, e02, e03, e10, e11, e12, e13, e20, e21, e22, e23, e30, e31, e32, e33,
    e40, e41, e42, e43, e50, e51, e52, e53, e60, e61, e62, e63, e70, e71, e72, e73]
  exact hck

/-- Claim C8 witness: the factory default configuration round-trips
identically. -/
theorem ld2450_c8_witness :
    LD2450LoadConfig (LD2450SaveConfig defaultConfig (fun _ _ => 0)) = defaultConfig :=
  ld2450_c8_amended defaultConfig (fun _ _ => 0) (by decide) (by decide) (by decide)
    (by decide) (by decide) (by decide) (by decide)

/-! ## Publication gate (LD2450ShowJSON, lines 661-687) -/

/-- The publish decision of LD2450ShowJSON: `publish_target` starts as the
timeout-check result; when the track mode is not OFF (0) and the publication
period has elapsed (`pubtimestamp + tracktime < now`), mode IN (1) publishes
only when the counter is positive while OUT (2) and IN_AND_OUT (3) always
publish; finally the function emits iff `publish_zone || publish_target`. -/
def showJSONShouldPublish (timeoutFired zoneChanged : Bool)
    (trackmode tracktime pubtimestamp now counter : Nat) : Bool :=
  let pt1 := timeoutFired
  let pt2 :=
    if trackmode ≠ 0 then
      if pubtimestamp + tracktime < now then
        if trackmode = 1 then (if 0 < counter then true else pt1)
        else if trackmode = 2 ∨ trackmode = 3 then true
        else pt1
      else pt1
    else pt1
  zoneChanged || pt2

/-- Claim C9: on a tick where the period elapsed, no zone change was signaled
and no timeout fired, the gate publishes iff mode IN has a positive counter,
or the mode is OUT or IN_AND_OUT; mode OFF never publishes on period expiry. -/
theorem ld2450_c9_period_gate (trackmode tracktime pubtimestamp now counter : Nat)
    (hper : pubtimestamp + tracktime < now) (hmode : trackmode ≤ 3) :
    (showJSONShouldPublish false false trackmode tracktime pubtimestamp now counter = true) ↔
      ((trackmode = 1 ∧ 0 < counter) ∨ trackmode = 2 ∨ trackmode = 3) := by
  interval_cases trackmode <;>
    simp [showJSONShouldPublish, hper]

/-- Claim C9 witness: mode IN with counter 0 does not publish on expiry. -/
theorem ld2450_c9_witness :
    (showJSONShouldPublish false false 1 5 0 6 0 = true) ↔
      ((1 = 1 ∧ 0 < 0) ∨ 1 = 2 ∨ 1 = 3) :=
  ld2450_c9_period_gate 1 5 0 6 0 (by norm_num) (by norm_num)

/-! ## Target/zone initialisation (LD2450InitTargets, lines 486-500;
checkForZoneChanges, lines 631-640) -/

/-- One detected-target record (`ld2450_target[i]`). -/
structure TargetState where
  x : Int
  y : Int
  speed : Int
  dist : Nat
  in_zone : Bool
deriving DecidableEq

/-- Occupancy bits of one zone over the three target slots
(`ld2450_zone[zone]`). -/
structure ZoneStatus where
  target_in_zone : List Bool
  target_in_zone_old : List Bool
deriving DecidableEq

/-- The state written by LD2450InitTargets. -/
structure SystemState where
  targets : List TargetState
  zones : List ZoneStatus
  counter : Nat
deriving DecidableEq

/-- LD2450InitTargets: zero every target field, clear every current bit, set
every previous bit to `markaschanged`, zero the counter (the loops overwrite
every entry of the fixed arrays, so the prior state does not matter). -/
def LD2450InitTargets (markaschanged : Bool) : SystemState :=
  { targets := List.replicate 3 ⟨0, 0, 0, 0, false⟩,
    zones := List.replicate 8 ⟨List.replicate 3 false, List.replicate 3 markaschanged⟩,
    counter := 0 }

/-- checkForZoneChanges: true iff some (target, zone) pair has current ≠
previous. -/
def checkForZoneChanges (zones : List ZoneStatus) : Bool :=
  zones.any fun zs =>
    (List.zip zs.target_in_zone zs.target_in_zone_old).any fun pr => pr.1 != pr.2

/-- Claim C10: after LD2450InitTargets(true) — run by every successful zone
set command and by the reset command — all target kinematics and flags are
zeroed, the counter is 0, every previous bit is true while every current bit
is false, so checkForZoneChanges reports a change and the publish gate fires
on the next tick whatever the mode, period and counter. -/
theorem ld2450_c10_init_forces_publish :
    (∀ t ∈ (LD2450InitTargets true).targets,
        t.x = 0 ∧ t.y = 0 ∧ t.speed = 0 ∧ t.dist = 0 ∧ t.in_zone = false) ∧
    (LD2450InitTargets true).counter = 0 ∧
    (∀ zs ∈ (LD2450InitTargets true).zones,
        (∀ bb ∈ zs.target_in_zone, bb = false) ∧
        (∀ bb ∈ zs.target_in_zone_old, bb = true)) ∧
    checkForZoneChanges (LD2450InitTargets true).zones = true ∧
    (∀ tf tm tt pts now cnt,
        showJSONShouldPublish tf (checkForZoneChanges (LD2450InitTargets true).zones)
          tm tt pts now cnt = true) := by
  refine ⟨by decide, rfl, by decide, by decide, ?_⟩
  intro tf tm tt pts now cnt
  have hzc : checkForZoneChanges (LD2450InitTargets true).zones = true := by decide
  rw [hzc]
  simp [showJSONShouldPublish]

end LD2450
